import Mathlib

/-!
# Shallow embedding of the WinReg registry wrapper

This file embeds the value model, the buffer codec and the dispatch logic of
the WinReg C++ module (WinReg.hpp / WinReg.cpp) in Lean 4 and proves the
properties of its specification against that embedding.

Modelling conventions:
- A wide character (wchar_t, 2 bytes) is a Nat; a byte is a Nat.
- A DWORD is a Nat; where the C++ code performs unsigned 32-bit arithmetic the
  embedding takes the result modulo 2 ^ 32 explicitly.
- A C++ function that can throw is embedded with an Except or CppOutcome
  result; the thrown exception kind is recorded.
- An execution that reads memory out of bounds (undefined behavior in C++,
  e.g. indexing a wstring past its size, or dereferencing the data pointer of
  an empty vector) is embedded as the outcome none / CppOutcome.ub.
- The external registry store is not embedded; functions that read from the
  store take the bytes the store reports as an argument, and functions that
  write to the store return the type tag and bytes handed to RegSetValueEx.
-/

/-- Registry value type identifiers, with their winnt.h numeric values. -/
def REG_NONE : Nat := 0

def REG_SZ : Nat := 1

def REG_EXPAND_SZ : Nat := 2

def REG_BINARY : Nat := 3

def REG_DWORD : Nat := 4

def REG_MULTI_SZ : Nat := 7

/-- Modulus of unsigned 32-bit (DWORD) arithmetic. -/
def DWORD_MOD : Nat := 2 ^ 32

/-- Largest value representable in a DWORD: numeric_limits of DWORD. -/
def DWORD_MAX : Nat := 2 ^ 32 - 1

/-- The C++ exception kinds the module can throw from the code embedded here. -/
inductive CppError where
  | invalidArgument
  | overflowError
deriving DecidableEq

/-- Outcome of running a piece of the C++ code: a normal result, a thrown
exception, or undefined behavior from an invalid memory access. -/
inductive CppOutcome (A : Type) where
  | ok : A → CppOutcome A
  | thrown : CppError → CppOutcome A
  | ub : CppOutcome A
deriving DecidableEq

/-- SafeSizeToDwordCast (WinReg.cpp, 64-bit branch): returns the size if it
fits in a DWORD, otherwise throws std::overflow_error (embedded as none). -/
def SafeSizeToDwordCast (size : Nat) : Option Nat :=
  if size > DWORD_MAX then none else some size

/-- RegValue (WinReg.hpp): variant-style registry value with a type tag and
one data member per supported payload kind. -/
structure RegValue where
  m_typeId : Nat := REG_NONE
  m_dword : Nat := 0
  m_string : List Nat := []
  m_expandString : List Nat := []
  m_multiString : List (List Nat) := []
  m_binary : List Nat := []
deriving DecidableEq

/-- RegValue(TypeId type): construct with the given type tag and the
default-constructed (empty) payload members. -/
def RegValue.ofType (t : Nat) : RegValue := { m_typeId := t }

/-- RegValue::GetType(). -/
def RegValue.GetType (v : RegValue) : Nat := v.m_typeId

/-- RegValue::IsEmpty(). -/
def RegValue.IsEmpty (v : RegValue) : Bool := v.m_typeId == REG_NONE

/-- RegValue::Dword() const: throws std::invalid_argument on a value whose
type tag is not REG_DWORD, else returns the m_dword member. -/
def RegValue.Dword (v : RegValue) : Except CppError Nat :=
  if v.m_typeId ≠ REG_DWORD then .error .invalidArgument else .ok v.m_dword

/-- RegValue::String() const. -/
def RegValue.String (v : RegValue) : Except CppError (List Nat) :=
  if v.m_typeId ≠ REG_SZ then .error .invalidArgument else .ok v.m_string

/-- RegValue::ExpandString() const. -/
def RegValue.ExpandString (v : RegValue) : Except CppError (List Nat) :=
  if v.m_typeId ≠ REG_EXPAND_SZ then .error .invalidArgument
  else .ok v.m_expandString

/-- RegValue::MultiString() const. -/
def RegValue.MultiString (v : RegValue) : Except CppError (List (List Nat)) :=
  if v.m_typeId ≠ REG_MULTI_SZ then .error .invalidArgument
  else .ok v.m_multiString

/-- RegValue::Binary() const. -/
def RegValue.Binary (v : RegValue) : Except CppError (List Nat) :=
  if v.m_typeId ≠ REG_BINARY then .error .invalidArgument else .ok v.m_binary

/-- RegValue::Dword() non-const, used as the target of an assignment: the same
type-tag guard, then the m_dword member is replaced. -/
def RegValue.DwordSet (v : RegValue) (x : Nat) : Except CppError RegValue :=
  if v.m_typeId ≠ REG_DWORD then .error .invalidArgument
  else .ok { v with m_dword := x }

/-- RegValue::String() non-const, used as the target of an assignment. -/
def RegValue.StringSet (v : RegValue) (x : List Nat) : Except CppError RegValue :=
  if v.m_typeId ≠ REG_SZ then .error .invalidArgument
  else .ok { v with m_string := x }

/-- RegValue::ExpandString() non-const, used as the target of an assignment. -/
def RegValue.ExpandStringSet (v : RegValue) (x : List Nat) :
    Except CppError RegValue :=
  if v.m_typeId ≠ REG_EXPAND_SZ then .error .invalidArgument
  else .ok { v with m_expandString := x }

/-- RegValue::MultiString() non-const, used as the target of an assignment. -/
def RegValue.MultiStringSet (v : RegValue) (x : List (List Nat)) :
    Except CppError RegValue :=
  if v.m_typeId ≠ REG_MULTI_SZ then .error .invalidArgument
  else .ok { v with m_multiString := x }

/-- RegValue::Binary() non-const, used as the target of an assignment. -/
def RegValue.BinarySet (v : RegValue) (x : List Nat) : Except CppError RegValue :=
  if v.m_typeId ≠ REG_BINARY then .error .invalidArgument
  else .ok { v with m_binary := x }

/-- Little-endian byte image of a DWORD, as laid out in memory when the
4-byte valueData buffer of a REG_DWORD is handed to RegSetValueEx. -/
def dwordToBytes (d : Nat) : List Nat :=
  [d % 256, d / 256 % 256, d / 65536 % 256, d / 16777216 % 256]

/-- The DWORD read back from (at most) 4 little-endian bytes the store
returns; a shorter buffer leaves the missing high bytes at their zero
initialization, as ReadValueDwordInternal initializes valueData to 0. -/
def bytesToDword (bytes : List Nat) : Nat :=
  (bytes.take 4).foldr (fun b acc => b % 256 + 256 * acc) 0

/-- Byte image of a wchar_t buffer (2 bytes per unit, little-endian). -/
def wcharsToBytes : List Nat → List Nat
  | [] => []
  | c :: rest => c % 256 :: c / 256 % 256 :: wcharsToBytes rest

/-- The wchar_t units a byte buffer holds; a trailing odd byte does not form
a unit (string reads size the wstring as valueSize / 2 units). -/
def bytesToWchars : List Nat → List Nat
  | b0 :: b1 :: rest => (b0 % 256 + 256 * (b1 % 256)) :: bytesToWchars rest
  | _ => []

/-- WriteValueStringInternal, codec part: the cast of the byte count
(str.size() + 1) * sizeof(wchar_t) through SafeSizeToDwordCast (throwing
std::overflow_error when it does not fit), and the wire unit buffer
str.c_str() covered by that count: the characters plus one zero unit. -/
def writeValueString (str : List Nat) : Except CppError (List Nat) :=
  match SafeSizeToDwordCast ((str.length + 1) * 2) with
  | none => .error .overflowError
  | some _ => .ok (str ++ [0])

/-- WriteValueExpandStringInternal, codec part: identical to the REG_SZ
encoding. -/
def writeValueExpandString (str : List Nat) : Except CppError (List Nat) :=
  match SafeSizeToDwordCast ((str.length + 1) * 2) with
  | none => .error .overflowError
  | some _ => .ok (str ++ [0])

/-- ReadValueStringInternal, codec part. The input is the wchar_t unit buffer
the store returned (stringBufferLenInWchars = valueSize / 2 units). The code
then evaluates str[stringBufferLenInWchars - 1] with DWORD arithmetic: on a
zero-length buffer that index wraps to 2 ^ 32 - 1 and the access is out of
bounds, embedded as none. If the last unit is the zero terminator it is
stripped by resize(len - 1); otherwise the buffer is the string. -/
def readValueString (data : List Nat) : Option (List Nat) :=
  match data[(data.length + DWORD_MOD - 1) % DWORD_MOD]? with
  | none => none
  | some c =>
    if c = 0 then some (data.take (data.length - 1)) else some data

/-- ReadValueExpandStringInternal, codec part: a copy of the REG_SZ decoding
(the source file duplicates the routine). -/
def readValueExpandString (data : List Nat) : Option (List Nat) :=
  match data[(data.length + DWORD_MOD - 1) % DWORD_MOD]? with
  | none => none
  | some c =>
    if c = 0 then some (data.take (data.length - 1)) else some data

/-- WriteValueMultiStringInternal, buffer construction: when the list is
empty the buffer is two zero units; otherwise each string is copied together
with its terminating zero unit (wmemcpy of s.size() + 1 units from s.c_str())
and one further zero unit is appended. -/
def multiStringBuffer (multiString : List (List Nat)) : List Nat :=
  if multiString.isEmpty then [0, 0]
  else (multiString.foldl (fun buffer s => buffer ++ (s ++ [0])) []) ++ [0]

/-- WriteValueMultiStringInternal, codec part: the buffer above, with its
byte count buffer.size() * sizeof(wchar_t) passed through
SafeSizeToDwordCast. -/
def writeValueMultiString (multiString : List (List Nat)) :
    Except CppError (List Nat) :=
  let buffer := multiStringBuffer multiString
  match SafeSizeToDwordCast (buffer.length * 2) with
  | none => .error .overflowError
  | some _ => .ok buffer

/-- The pszz scan of ReadValueMultiStringInternal. At each string start the
code reads *pszz; a zero unit there ends the list. Otherwise wcslen walks to
the next zero unit and the string up to it is collected. Walking past the end
of the buffer (wcslen finding no zero, or the start-of-string read itself
lying past the end) is an out-of-bounds access, embedded as none. -/
def parseMultiSzAux : List Nat → List Nat → List (List Nat) →
    Option (List (List Nat))
  | [], _, _ => none
  | c :: rest, cur, acc =>
    if c = 0 then
      if cur.isEmpty then some acc
      else parseMultiSzAux rest [] (acc ++ [cur])
    else parseMultiSzAux rest (cur ++ [c]) acc

/-- The whole multi-string scan starting at the front of the buffer. -/
def parseMultiSz (buffer : List Nat) : Option (List (List Nat)) :=
  parseMultiSzAux buffer [] []

/-- ReadValueMultiStringInternal, codec part. The input is the unit data the
store returned (valueSize bytes give valueSize / 2 units). The code allocates
vector of wchar_t of valueSize entries (in units, so twice the needed room),
zero initialized; the store fills the first half and the scan runs over the
whole. A zero byte count allocates an empty vector whose data pointer is
dereferenced by the scan: out of bounds, none. -/
def readValueMultiString (data : List Nat) : Option (List (List Nat)) :=
  parseMultiSz (data ++ List.replicate data.length 0)

/-- ReadValueBinaryInternal, codec part: the bytes verbatim. -/
def readValueBinary (data : List Nat) : List Nat := data

/-- WriteValueBinaryInternal, codec part: the byte count data.size() passed
through SafeSizeToDwordCast, the bytes sent verbatim. -/
def writeValueBinary (data : List Nat) : Except CppError (List Nat) :=
  match SafeSizeToDwordCast data.length with
  | none => .error .overflowError
  | some _ => .ok data

/-- ReadValueDwordInternal after a successful RegQueryValueEx: builds a
REG_DWORD RegValue holding the bytes read into the zero-initialized DWORD. -/
def ReadValueDwordInternal (bytes : List Nat) : CppOutcome RegValue :=
  .ok { RegValue.ofType REG_DWORD with m_dword := bytesToDword bytes }

/-- ReadValueStringInternal after a successful RegQueryValueEx. -/
def ReadValueStringInternal (bytes : List Nat) : CppOutcome RegValue :=
  match readValueString (bytesToWchars bytes) with
  | none => .ub
  | some s => .ok { RegValue.ofType REG_SZ with m_string := s }

/-- ReadValueExpandStringInternal after a successful RegQueryValueEx. -/
def ReadValueExpandStringInternal (bytes : List Nat) : CppOutcome RegValue :=
  match readValueExpandString (bytesToWchars bytes) with
  | none => .ub
  | some s => .ok { RegValue.ofType REG_EXPAND_SZ with m_expandString := s }

/-- ReadValueMultiStringInternal after a successful RegQueryValueEx. -/
def ReadValueMultiStringInternal (bytes : List Nat) : CppOutcome RegValue :=
  match readValueMultiString (bytesToWchars bytes) with
  | none => .ub
  | some l => .ok { RegValue.ofType REG_MULTI_SZ with m_multiString := l }

/-- ReadValueBinaryInternal after a successful RegQueryValueEx. -/
def ReadValueBinaryInternal (bytes : List Nat) : CppOutcome RegValue :=
  .ok { RegValue.ofType REG_BINARY with m_binary := readValueBinary bytes }

/-- QueryValue dispatch (WinReg.cpp): after the store reports the type tag
and byte count of the entry, dispatch on the tag; a tag outside the five
supported kinds throws std::invalid_argument without touching the data. -/
def QueryValueDispatch (valueType : Nat) (bytes : List Nat) :
    CppOutcome RegValue :=
  if valueType = REG_BINARY then ReadValueBinaryInternal bytes
  else if valueType = REG_DWORD then ReadValueDwordInternal bytes
  else if valueType = REG_SZ then ReadValueStringInternal bytes
  else if valueType = REG_EXPAND_SZ then ReadValueExpandStringInternal bytes
  else if valueType = REG_MULTI_SZ then ReadValueMultiStringInternal bytes
  else .thrown .invalidArgument

/-- WriteValueDwordInternal: the accessor, then the 4 data bytes and the tag
handed to RegSetValueEx. -/
def WriteValueDwordInternal (value : RegValue) : CppOutcome (Nat × List Nat) :=
  match value.Dword with
  | .error e => .thrown e
  | .ok d => .ok (REG_DWORD, dwordToBytes d)

/-- WriteValueStringInternal: the accessor, the checked size cast, then the
tag and bytes handed to RegSetValueEx. -/
def WriteValueStringInternal (value : RegValue) : CppOutcome (Nat × List Nat) :=
  match value.String with
  | .error e => .thrown e
  | .ok str =>
    match writeValueString str with
    | .error e => .thrown e
    | .ok wire => .ok (REG_SZ, wcharsToBytes wire)

/-- WriteValueExpandStringInternal. -/
def WriteValueExpandStringInternal (value : RegValue) :
    CppOutcome (Nat × List Nat) :=
  match value.ExpandString with
  | .error e => .thrown e
  | .ok str =>
    match writeValueExpandString str with
    | .error e => .thrown e
    | .ok wire => .ok (REG_EXPAND_SZ, wcharsToBytes wire)

/-- WriteValueMultiStringInternal. -/
def WriteValueMultiStringInternal (value : RegValue) :
    CppOutcome (Nat × List Nat) :=
  match value.MultiString with
  | .error e => .thrown e
  | .ok ms =>
    match writeValueMultiString ms with
    | .error e => .thrown e
    | .ok buffer => .ok (REG_MULTI_SZ, wcharsToBytes buffer)

/-- WriteValueBinaryInternal. -/
def WriteValueBinaryInternal (value : RegValue) : CppOutcome (Nat × List Nat) :=
  match value.Binary with
  | .error e => .thrown e
  | .ok data =>
    match writeValueBinary data with
    | .error e => .thrown e
    | .ok wire => .ok (REG_BINARY, wire)

/-- SetValue dispatch (WinReg.cpp): dispatch on the type tag of the value; a
tag outside the five supported kinds throws std::invalid_argument without
any write. -/
def SetValueDispatch (value : RegValue) : CppOutcome (Nat × List Nat) :=
  if value.GetType = REG_BINARY then WriteValueBinaryInternal value
  else if value.GetType = REG_DWORD then WriteValueDwordInternal value
  else if value.GetType = REG_SZ then WriteValueStringInternal value
  else if value.GetType = REG_EXPAND_SZ then WriteValueExpandStringInternal value
  else if value.GetType = REG_MULTI_SZ then WriteValueMultiStringInternal value
  else .thrown .invalidArgument

/-- RegKey (WinReg.hpp): wrapper owning at most one raw HKEY; none models a
null handle. -/
structure RegKey where
  m_hKey : Option Nat := none
deriving DecidableEq

/-- RegKey::IsValid(): the wrapped handle is not null. -/
def RegKey.IsValid (k : RegKey) : Bool := k.m_hKey.isSome

/-- RegKey::Close(): if a handle is held, RegCloseKey releases it; the member
is then nulled. The second component records the handle released by this
call, none when no native release happened. -/
def RegKey.Close (k : RegKey) : RegKey × Option Nat :=
  match k.m_hKey with
  | some h => ({ m_hKey := none }, some h)
  | none => ({ m_hKey := none }, none)

/-- RegKey move constructor: the new object takes the handle, the source
member is nulled. Result: (destination, source after the move). -/
def RegKey.moveCtor (other : RegKey) : RegKey × RegKey :=
  ({ m_hKey := other.m_hKey }, { m_hKey := none })

/-- RegKey move assignment (self assignment excluded by the address check in
the source): Close() on the target, then the handle moves and the source
member is nulled. Result: ((target after, source after), handle the implied
Close released). -/
def RegKey.moveAssign (self other : RegKey) : (RegKey × RegKey) × Option Nat :=
  let c := self.Close
  (({ m_hKey := other.m_hKey }, { m_hKey := none }), c.2)

/-- std::wstring::resize(n): truncate to n units or pad with zero units. -/
def wstringResize (s : List Nat) (n : Nat) : List Nat :=
  if n ≤ s.length then s.take n else s ++ List.replicate (n - s.length) 0

/-- winreg::ExpandEnvironmentStrings. The native expansion call is external;
the embedding takes its observable responses as arguments: requiredLen is
what the sizing call returns, fillLen is what the filling call returns, and
written is the unit sequence the filling call stores at the front of the
resized buffer. A zero requiredLen or a zero fillLen makes the function
return the empty string with no exception; otherwise the buffer is resized
to fillLen - 1 units, dropping the trailing zero terminator the native call
counts. The function has no error outcome of its own. -/
def ExpandEnvironmentStrings (requiredLen fillLen : Nat) (written : List Nat) :
    List Nat :=
  if requiredLen = 0 then []
  else
    let str0 := wstringResize [] requiredLen
    let filled := written.take requiredLen ++ str0.drop (written.take requiredLen).length
    if fillLen = 0 then []
    else wstringResize filled (fillLen - 1)

/-! ## Helper lemmas about the codec -/

/-- The copy loop of WriteValueMultiStringInternal appends each string with
its terminating zero unit; as a fold it equals the flat concatenation of the
self-terminated strings. -/
theorem foldl_buffer_eq_flatten (ms : List (List Nat)) (init : List Nat) :
    ms.foldl (fun buffer s => buffer ++ (s ++ [0])) init =
      init ++ (ms.map (fun s => s ++ [0])).flatten := by
  induction ms generalizing init with
  | nil => simp
  | cons s tl ih => simp [ih, List.append_assoc]

/-- On a non-empty list the multi-string buffer is the concatenation of the
self-terminated strings plus the final terminator unit. -/
theorem multiStringBuffer_cons (s : List Nat) (tl : List (List Nat)) :
    multiStringBuffer (s :: tl) =
      ((s :: tl).map (fun t => t ++ [0])).flatten ++ [0] := by
  simp [multiStringBuffer, foldl_buffer_eq_flatten]

/-- Scanning a zero-free string accumulates it into the current string. -/
theorem parseMultiSzAux_string (s : List Nat) (h : ∀ c ∈ s, c ≠ 0) :
    ∀ (rest cur : List Nat) (acc : List (List Nat)),
      parseMultiSzAux (s ++ rest) cur acc =
        parseMultiSzAux rest (cur ++ s) acc := by
  induction s with
  | nil => intro rest cur acc; simp
  | cons c s ih =>
    intro rest cur acc
    have hc : c ≠ 0 := h c (List.mem_cons_self c s)
    have hs : ∀ x ∈ s, x ≠ 0 := fun x hx => h x (List.mem_cons_of_mem c hx)
    simp only [List.cons_append, parseMultiSzAux, if_neg hc, List.append_eq]
    rw [ih hs rest (cur ++ [c]) acc]
    simp [List.append_assoc]

/-- A zero unit after a non-empty current string closes that string. -/
theorem parseMultiSzAux_terminator (rest cur : List Nat)
    (acc : List (List Nat)) (h : cur ≠ []) :
    parseMultiSzAux (0 :: rest) cur acc =
      parseMultiSzAux rest [] (acc ++ [cur]) := by
  cases cur with
  | nil => exact absurd rfl h
  | cons x xs => simp [parseMultiSzAux]

/-- A zero unit at a string start ends the whole list. -/
theorem parseMultiSzAux_stop (rest : List Nat) (acc : List (List Nat)) :
    parseMultiSzAux (0 :: rest) [] acc = some acc := by
  simp [parseMultiSzAux]

/-- Scanning the concatenation of self-terminated, non-empty, zero-free
strings followed by the list terminator collects exactly those strings. -/
theorem parseMultiSzAux_flatten (ms : List (List Nat))
    (h : ∀ s ∈ ms, s ≠ [] ∧ ∀ c ∈ s, c ≠ 0) :
    ∀ (rest : List Nat) (acc : List (List Nat)),
      parseMultiSzAux ((ms.map (fun s => s ++ [0])).flatten ++ 0 :: rest) [] acc =
        some (acc ++ ms) := by
  induction ms with
  | nil => intro rest acc; simp [parseMultiSzAux_stop]
  | cons s tl ih =>
    intro rest acc
    obtain ⟨hne, hz⟩ := h s (List.mem_cons_self s tl)
    have htl : ∀ t ∈ tl, t ≠ [] ∧ ∀ c ∈ t, c ≠ 0 :=
      fun t ht => h t (List.mem_cons_of_mem s ht)
    rw [List.map_cons, List.flatten_cons, List.append_assoc,
      List.append_assoc, List.singleton_append,
      parseMultiSzAux_string s hz, List.nil_append,
      parseMultiSzAux_terminator _ _ _ hne, ih htl]
    simp

/-- Round trip of the multi-string codec for lists of non-empty, zero-free
strings. -/
theorem readValueMultiString_roundtrip (ms : List (List Nat))
    (h : ∀ s ∈ ms, s ≠ [] ∧ ∀ c ∈ s, c ≠ 0) :
    readValueMultiString (multiStringBuffer ms) = some ms := by
  cases ms with
  | nil => rfl
  | cons s tl =>
    rw [multiStringBuffer_cons]
    unfold readValueMultiString parseMultiSz
    rw [List.append_assoc, List.singleton_append,
      parseMultiSzAux_flatten (s :: tl) h]
    simp

/-- Decoding a buffer of characters followed by exactly one zero unit yields
the characters: the wrapped index lands on the terminator, which resize
strips. -/
theorem readValueString_terminated (s : List Nat) (h : s.length < DWORD_MOD) :
    readValueString (s ++ [0]) = some s := by
  unfold readValueString
  have hidx : ((s ++ [0]).length + DWORD_MOD - 1) % DWORD_MOD = s.length := by
    simp only [List.length_append, List.length_singleton]
    unfold DWORD_MOD at *
    omega
  have hget : (s ++ [0])[s.length]? = some 0 := by
    rw [List.getElem?_append_right (Nat.le_refl s.length)]
    simp
  rw [hidx, hget]
  simp [List.take_left]

/-- The 4-byte little-endian image of a DWORD reads back as the same DWORD. -/
theorem bytesToDword_dwordToBytes (d : Nat) (h : d < DWORD_MOD) :
    bytesToDword (dwordToBytes d) = d := by
  simp only [bytesToDword, dwordToBytes, List.take, List.foldr]
  unfold DWORD_MOD at h
  omega

/-! ## Claim theorems -/

/-- C1 counterexample: the claim includes the representative input "list of
one empty string", but the multi-string codec cannot round trip it: the list
holding one empty string encodes to the same buffer as the empty list, two
zero units, and that buffer decodes to zero strings, not to one empty
string. -/
theorem c1_roundtrip_counterexample :
    writeValueMultiString [([] : List Nat)] = .ok [0, 0] ∧
    readValueMultiString [0, 0] = some [] ∧
    ([] : List (List Nat)) ≠ [[]] := by
  refine ⟨rfl, rfl, by decide⟩

/-- C1 (amended): decode of encode is the identity for every supported kind
on payloads the wire format can carry: any DWORD, any text string (with the
terminator appended on encode and stripped on decode), any byte blob, and
any string list whose entries are non-empty and free of zero units — which
covers every representative input of the claim except the list of one empty
string. The size hypotheses keep each encoded byte count within the DWORD
length field, as on the wire. -/
theorem c1_roundtrip (d : Nat) (s b : List Nat) (ms : List (List Nat))
    (hd : d < DWORD_MOD)
    (hs : (s.length + 1) * 2 ≤ DWORD_MAX)
    (hb : b.length ≤ DWORD_MAX)
    (hms : ∀ t ∈ ms, t ≠ [] ∧ ∀ c ∈ t, c ≠ 0)
    (hmsSize : (multiStringBuffer ms).length * 2 ≤ DWORD_MAX) :
    bytesToDword (dwordToBytes d) = d ∧
    (writeValueString s = .ok (s ++ [0]) ∧
      readValueString (s ++ [0]) = some s) ∧
    (writeValueExpandString s = .ok (s ++ [0]) ∧
      readValueExpandString (s ++ [0]) = some s) ∧
    (writeValueBinary b = .ok b ∧ readValueBinary b = b) ∧
    (writeValueMultiString ms = .ok (multiStringBuffer ms) ∧
      readValueMultiString (multiStringBuffer ms) = some ms) := by
  have hsz : ¬ ((s.length + 1) * 2 > DWORD_MAX) := by omega
  have hslen : s.length < DWORD_MOD := by
    unfold DWORD_MAX at hs
    unfold DWORD_MOD
    omega
  have hexp : readValueExpandString = readValueString := rfl
  refine ⟨bytesToDword_dwordToBytes d hd, ⟨?_, ?_⟩, ⟨?_, ?_⟩, ⟨?_, ?_⟩, ⟨?_, ?_⟩⟩
  · simp [writeValueString, SafeSizeToDwordCast, hsz]
  · exact readValueString_terminated s hslen
  · simp [writeValueExpandString, SafeSizeToDwordCast, hsz]
  · rw [hexp]
    exact readValueString_terminated s hslen
  · simp [writeValueBinary, SafeSizeToDwordCast, Nat.not_lt.mpr hb]
  · rfl
  · simp [writeValueMultiString, SafeSizeToDwordCast, Nat.not_lt.mpr hmsSize]
  · exact readValueMultiString_roundtrip ms hms

/-- C1 witness: the amended round trip at concrete representative values,
the DWORD at its maximum among them. -/
theorem c1_roundtrip_witness :
    bytesToDword (dwordToBytes 4294967295) = 4294967295 ∧
    (writeValueString [72, 105] = .ok ([72, 105] ++ [0]) ∧
      readValueString ([72, 105] ++ [0]) = some [72, 105]) ∧
    (writeValueExpandString [72, 105] = .ok ([72, 105] ++ [0]) ∧
      readValueExpandString ([72, 105] ++ [0]) = some [72, 105]) ∧
    (writeValueBinary [34, 51, 68] = .ok [34, 51, 68] ∧
      readValueBinary [34, 51, 68] = [34, 51, 68]) ∧
    (writeValueMultiString [[67, 105], [72]] =
        .ok (multiStringBuffer [[67, 105], [72]]) ∧
      readValueMultiString (multiStringBuffer [[67, 105], [72]]) =
        some [[67, 105], [72]]) :=
  c1_roundtrip 4294967295 [72, 105] [34, 51, 68] [[67, 105], [72]]
    (by decide) (by decide) (by decide) (by decide) (by decide)

/-- C2: the multi-string encoder emits exactly the double-zero-terminated
framing: the empty list becomes exactly two zero units (4 bytes at 2 bytes
per unit), and a non-empty list becomes each string self-terminated by one
zero unit, in order, plus exactly one final terminator unit. -/
theorem c2_textlist_framing (ms : List (List Nat)) (h : ms ≠ []) :
    multiStringBuffer [] = [0, 0] ∧
    (multiStringBuffer []).length * 2 = 4 ∧
    multiStringBuffer ms = (ms.map (fun s => s ++ [0])).flatten ++ [0] := by
  refine ⟨rfl, rfl, ?_⟩
  cases ms with
  | nil => exact absurd rfl h
  | cons s tl => exact multiStringBuffer_cons s tl

/-- C2 witness: the framing at a concrete one-element list. -/
theorem c2_textlist_framing_witness :
    multiStringBuffer [] = [0, 0] ∧
    (multiStringBuffer []).length * 2 = 4 ∧
    multiStringBuffer [[72]] =
      (([[72]] : List (List Nat)).map (fun s => s ++ [0])).flatten ++ [0] :=
  c2_textlist_framing [[72]] (by decide)

/-- C3 evaluation at the failing input: on a declared byte length of zero
the REG_SZ and REG_EXPAND_SZ decoders compute the index 0 - 1 in DWORD
arithmetic, 4294967295, and read out of bounds (none) instead of producing
the empty string. -/
theorem c3_zero_length_decode :
    readValueString [] = none ∧ readValueExpandString [] = none :=
  ⟨rfl, rfl⟩

/-- C4 evaluation: decoding an entirely empty multi-string buffer
dereferences the data pointer of an empty vector (none) instead of yielding
zero strings; a buffer of two zero units does yield zero strings. -/
theorem c4_empty_multi_decode :
    readValueMultiString [] = none ∧ readValueMultiString [0, 0] = some [] :=
  ⟨rfl, rfl⟩

/-- C5 evaluation at the failing input: for the empty character sequence the
terminated buffer (one zero unit) decodes to the empty string, but the
unterminated form is the zero-length buffer, where the decoder reads out of
bounds (none) instead of producing the same empty string. -/
theorem c5_terminator_tolerance :
    readValueString ([] ++ [0]) = some [] ∧ readValueString [] = none :=
  ⟨rfl, rfl⟩

/-- C6: every typed accessor of RegValue, in const (read) and non-const
(assignment target) form, throws std::invalid_argument when the type tag of
the value differs from the kind of the accessor, and otherwise returns or
updates exactly the payload slot of that kind. -/
theorem c6_typed_accessors (v : RegValue) (d : Nat) (s e b : List Nat)
    (ms : List (List Nat)) :
    ((v.m_typeId ≠ REG_DWORD →
        v.Dword = .error .invalidArgument ∧
        v.DwordSet d = .error .invalidArgument) ∧
      (v.m_typeId = REG_DWORD →
        v.Dword = .ok v.m_dword ∧
        v.DwordSet d = .ok { v with m_dword := d })) ∧
    ((v.m_typeId ≠ REG_SZ →
        v.String = .error .invalidArgument ∧
        v.StringSet s = .error .invalidArgument) ∧
      (v.m_typeId = REG_SZ →
        v.String = .ok v.m_string ∧
        v.StringSet s = .ok { v with m_string := s })) ∧
    ((v.m_typeId ≠ REG_EXPAND_SZ →
        v.ExpandString = .error .invalidArgument ∧
        v.ExpandStringSet e = .error .invalidArgument) ∧
      (v.m_typeId = REG_EXPAND_SZ →
        v.ExpandString = .ok v.m_expandString ∧
        v.ExpandStringSet e = .ok { v with m_expandString := e })) ∧
    ((v.m_typeId ≠ REG_MULTI_SZ →
        v.MultiString = .error .invalidArgument ∧
        v.MultiStringSet ms = .error .invalidArgument) ∧
      (v.m_typeId = REG_MULTI_SZ →
        v.MultiString = .ok v.m_multiString ∧
        v.MultiStringSet ms = .ok { v with m_multiString := ms })) ∧
    ((v.m_typeId ≠ REG_BINARY →
        v.Binary = .error .invalidArgument ∧
        v.BinarySet b = .error .invalidArgument) ∧
      (v.m_typeId = REG_BINARY →
        v.Binary = .ok v.m_binary ∧
        v.BinarySet b = .ok { v with m_binary := b })) := by
  refine ⟨?_, ?_, ?_, ?_, ?_⟩ <;>
    constructor <;>
      intro h <;>
        simp [RegValue.Dword, RegValue.DwordSet, RegValue.String,
          RegValue.StringSet, RegValue.ExpandString, RegValue.ExpandStringSet,
          RegValue.MultiString, RegValue.MultiStringSet, RegValue.Binary,
          RegValue.BinarySet, h]

/-- C6 witness: on a REG_DWORD value the DWORD accessors succeed on the
dword slot and the string accessors throw. -/
theorem c6_typed_accessors_witness :
    (RegValue.ofType REG_DWORD).Dword = .ok 0 ∧
    (RegValue.ofType REG_DWORD).DwordSet 7 =
      .ok { RegValue.ofType REG_DWORD with m_dword := 7 } ∧
    (RegValue.ofType REG_DWORD).String = .error .invalidArgument ∧
    (RegValue.ofType REG_DWORD).StringSet [72] = .error .invalidArgument := by
  have h := c6_typed_accessors (RegValue.ofType REG_DWORD) 7 [72] [] [] []
  exact ⟨(h.1.2 rfl).1, (h.1.2 rfl).2, (h.2.1.1 (by decide)).1,
    (h.2.1.1 (by decide)).2⟩

/-- C7: a computed byte length above the DWORD maximum makes
SafeSizeToDwordCast throw std::overflow_error, and hence makes the string,
multi-string and binary encoders fail with that error before any write; a
byte length within the limit passes the cast unchanged. -/
theorem c7_size_cast_overflow (n m : Nat) (b s : List Nat)
    (ms : List (List Nat))
    (hn : n ≤ DWORD_MAX) (hm : DWORD_MAX < m)
    (hb : DWORD_MAX < b.length)
    (hs : DWORD_MAX < (s.length + 1) * 2)
    (hms : DWORD_MAX < (multiStringBuffer ms).length * 2) :
    SafeSizeToDwordCast n = some n ∧
    SafeSizeToDwordCast m = none ∧
    writeValueBinary b = .error .overflowError ∧
    writeValueString s = .error .overflowError ∧
    writeValueMultiString ms = .error .overflowError := by
  refine ⟨?_, ?_, ?_, ?_, ?_⟩
  · simp [SafeSizeToDwordCast, Nat.not_lt.mpr hn]
  · simp [SafeSizeToDwordCast, hm]
  · simp [writeValueBinary, SafeSizeToDwordCast, hb]
  · simp [writeValueString, SafeSizeToDwordCast, hs]
  · simp [writeValueMultiString, SafeSizeToDwordCast, hms]

/-- C7 witness: the cast at the boundary values, and encoders on payloads
one past the DWORD byte limit. -/
theorem c7_size_cast_overflow_witness :
    SafeSizeToDwordCast 4294967295 = some 4294967295 ∧
    SafeSizeToDwordCast 4294967296 = none ∧
    writeValueBinary (List.replicate 4294967296 0) = .error .overflowError ∧
    writeValueString (List.replicate 2147483648 0) = .error .overflowError ∧
    writeValueMultiString [List.replicate 2147483648 1] =
      .error .overflowError := by
  refine c7_size_cast_overflow 4294967295 4294967296
    (List.replicate 4294967296 0) (List.replicate 2147483648 0)
    [List.replicate 2147483648 1] (by decide) (by decide) ?_ ?_ ?_
  · rw [List.length_replicate]
    decide
  · rw [List.length_replicate]
    decide
  · rw [multiStringBuffer_cons, List.map_cons, List.map_nil,
      List.flatten_cons, List.flatten_nil, List.append_nil,
      List.length_append, List.length_append, List.length_replicate]
    decide

/-- C8: the source of a move (by constructor or by assignment) reports
itself invalid, closing it is a no-op that releases no handle, and a second
Close on any handle changes nothing and releases nothing. -/
theorem c8_handle_ownership (k j : RegKey) :
    (RegKey.moveCtor k).2.IsValid = false ∧
    (RegKey.moveCtor k).2.Close = ({ m_hKey := none }, none) ∧
    ((RegKey.moveAssign j k).1.2).IsValid = false ∧
    ((RegKey.moveAssign j k).1.2).Close = ({ m_hKey := none }, none) ∧
    (k.Close.1).Close = (k.Close.1, none) := by
  obtain ⟨h⟩ := k
  cases h <;>
    simp [RegKey.moveCtor, RegKey.moveAssign, RegKey.Close, RegKey.IsValid]

/-- C9: a type tag outside the five supported kinds makes the QueryValue
dispatch and the SetValue dispatch throw std::invalid_argument, whatever the
data, with no transfer attempted. -/
theorem c9_unsupported_kind (t : Nat) (bytes : List Nat) (v : RegValue)
    (ht1 : t ≠ REG_BINARY) (ht2 : t ≠ REG_DWORD) (ht3 : t ≠ REG_SZ)
    (ht4 : t ≠ REG_EXPAND_SZ) (ht5 : t ≠ REG_MULTI_SZ)
    (hv1 : v.m_typeId ≠ REG_BINARY) (hv2 : v.m_typeId ≠ REG_DWORD)
    (hv3 : v.m_typeId ≠ REG_SZ) (hv4 : v.m_typeId ≠ REG_EXPAND_SZ)
    (hv5 : v.m_typeId ≠ REG_MULTI_SZ) :
    QueryValueDispatch t bytes = .thrown .invalidArgument ∧
    SetValueDispatch v = .thrown .invalidArgument := by
  constructor
  · simp [QueryValueDispatch, ht1, ht2, ht3, ht4, ht5]
  · simp [SetValueDispatch, RegValue.GetType, hv1, hv2, hv3, hv4, hv5]

/-- C9 witness: tag 11 (REG_QWORD) is rejected on read and on write. -/
theorem c9_unsupported_kind_witness :
    QueryValueDispatch 11 [1, 2, 3] = .thrown .invalidArgument ∧
    SetValueDispatch (RegValue.ofType 11) = .thrown .invalidArgument :=
  c9_unsupported_kind 11 [1, 2, 3] (RegValue.ofType 11)
    (by decide) (by decide) (by decide) (by decide) (by decide)
    (by decide) (by decide) (by decide) (by decide) (by decide)

/-- C10: ExpandEnvironmentStrings raises nothing (its embedding is a total
function into strings): when the native sizing call reports zero, or the
native filling call reports zero, the result is the empty string; when the
filling call succeeds, writing the expanded text with its terminator and
returning their unit count, the result is the expanded text with the
trailing terminator removed. -/
theorem c10_expand_environment (requiredLen fillLen : Nat)
    (written text : List Nat)
    (hw : written = text ++ [0]) (hf : fillLen = written.length)
    (hr : written.length ≤ requiredLen) :
    ExpandEnvironmentStrings 0 fillLen written = [] ∧
    ExpandEnvironmentStrings requiredLen 0 written = [] ∧
    ExpandEnvironmentStrings requiredLen fillLen written = text := by
  subst hw
  subst hf
  have hlen : (text ++ [0]).length = text.length + 1 := by simp
  have hreq : requiredLen ≠ 0 := by omega
  refine ⟨rfl, ?_, ?_⟩
  · unfold ExpandEnvironmentStrings
    by_cases h : requiredLen = 0 <;> simp [h]
  · unfold ExpandEnvironmentStrings
    rw [if_neg hreq]
    have h1 : (text ++ [0]).take requiredLen = text ++ [0] :=
      List.take_of_length_le hr
    have h2 : wstringResize [] requiredLen = List.replicate requiredLen 0 := by
      unfold wstringResize
      simp [Nat.le_zero, hreq]
    have hfl : (text ++ [0]).length ≠ 0 := by
      simp
    rw [if_neg hfl, h1, h2, List.drop_replicate]
    unfold wstringResize
    rw [if_pos (by
      simp only [List.length_append, List.length_replicate,
        List.length_singleton]
      omega)]
    rw [hlen, Nat.add_sub_cancel, List.append_assoc, List.singleton_append,
      List.take_append_of_le_length (Nat.le_refl text.length),
      List.take_length]

/-- C10 witness: a concrete expansion with two text units, and the two
native-failure shapes. -/
theorem c10_expand_environment_witness :
    ExpandEnvironmentStrings 0 3 [87, 88, 0] = [] ∧
    ExpandEnvironmentStrings 4 0 [87, 88, 0] = [] ∧
    ExpandEnvironmentStrings 4 3 [87, 88, 0] = [87, 88] :=
  c10_expand_environment 4 3 [87, 88, 0] [87, 88] rfl rfl (by decide)
